import Mathlib

/-!
# Verification of the flytrap_api authentication/authorization layer

Shallow embedding of the JWT auth subsystem of the `flytrap_api` Flask
application (`app/utils/auth/token_manager.py`, `auth_manager.py`,
`jwt_auth.py`) and proofs of the claimed properties.

Modelling conventions:
* A signed JWT string is modelled by the `Token` structure: the claims
  payload, the absolute expiry (`exp`, epoch seconds as `Nat`), and the
  secret the token was signed with.  Serialization is injective for
  well-formed tokens, so the structure stands for the string on the wire.
* `jwt.decode` follows PyJWT semantics: the signature is verified first
  (failure raises `InvalidTokenError` via `InvalidSignatureError`), then
  the `exp` claim is validated (`ExpiredSignatureError` iff `exp ≤ now`,
  PyJWT's `exp <= (now - leeway)` with zero leeway).
* Python exceptions are modelled with `Except`; calls to `datetime.utcnow()`
  are modelled by explicit clock parameters (distinct call sites may read
  distinct instants, which is how clock skew enters).
* The data-access collaborators `fetch_project_users` and
  `get_user_root_info` are not part of the auth layer (the spec lists them
  as the external collaborator contract `fetchProjectUsers(projectId) ->
  set of UserId`, `getUserRootStatus(userId) -> bool`); they are passed as
  function parameters.
-/

namespace Flytrap

/-- The claims payload carried by every token minted by `TokenManager`:
`{"user_uuid": ..., "is_root": ...}` (`exp` is kept separately). -/
structure Payload where
  user_uuid : String
  is_root : Bool
deriving Repr, DecidableEq

/-- A signed JWT as produced by `jwt.encode(payload, secret, "HS256")`:
the payload, the `exp` claim, and the signing secret. -/
structure Token where
  payload : Payload
  exp : Nat
  secret : String
deriving Repr, DecidableEq

/-- The two PyJWT failure kinds the code distinguishes
(`except jwt.ExpiredSignatureError` before `except jwt.InvalidTokenError`;
a bad signature surfaces as `InvalidTokenError`). -/
inductive JwtError where
  | ExpiredSignatureError
  | InvalidTokenError
deriving Repr, DecidableEq

/-- `jwt.decode(token, secret, algorithms=["HS256"])` at current time `now`:
signature verification first, then expiry (expired iff `exp ≤ now`). -/
def jwtDecode (tok : Token) (secret : String) (now : Nat) : Except JwtError Payload :=
  if tok.secret ≠ secret then .error .InvalidTokenError
  else if tok.exp ≤ now then .error .ExpiredSignatureError
  else .ok tok.payload

/-- The shared signing secret `SECRET_KEY` imported by `token_manager.py`
from the process configuration (opaque to the auth layer). -/
def SECRET_KEY : String := "jwt_secret_key"

namespace TokenManager

/-- `TokenManager.create_access_token(user_uuid, is_root, expires_in=20)`:
a token signed with `SECRET_KEY` expiring `expires_in` seconds after the
minting clock `now`. -/
def create_access_token (user_uuid : String) (is_root : Bool) (now : Nat)
    (expires_in : Nat := 20) : Token :=
  { payload := { user_uuid := user_uuid, is_root := is_root }
    exp := now + expires_in
    secret := SECRET_KEY }

/-- `TokenManager.create_refresh_token(user_uuid, is_root, expires_in=7)`:
a token signed with `SECRET_KEY` expiring `expires_in` days after `now`. -/
def create_refresh_token (user_uuid : String) (is_root : Bool) (now : Nat)
    (expires_in : Nat := 7) : Token :=
  { payload := { user_uuid := user_uuid, is_root := is_root }
    exp := now + expires_in * 86400
    secret := SECRET_KEY }

/-- `TokenManager.decode_token(token)`: `jwt.decode` with `SECRET_KEY`. -/
def decode_token (tok : Token) (now : Nat) : Except JwtError Payload :=
  jwtDecode tok SECRET_KEY now

/-- A refresh error body `{"status": "error", "message": ...}`. -/
structure ErrBody where
  status : String
  message : String
deriving Repr, DecidableEq

/-- `TokenManager.refresh_access_token()`: reads the `refresh_token` cookie;
missing cookie, expired and malformed refresh tokens give the three typed
error bodies of the source; otherwise a fresh access token is minted
carrying the refresh token's `user_uuid` and `is_root`.  `now` is the clock
for both the refresh-token decode and the mint. -/
def refresh_access_token (cookie : Option Token) (now : Nat) :
    Option Token × Option ErrBody :=
  match cookie with
  | none => (none, some { status := "error", message := "No refresh token found" })
  | some rt =>
    match decode_token rt now with
    | .ok payload =>
      (some (create_access_token payload.user_uuid payload.is_root now), none)
    | .error .ExpiredSignatureError =>
      (none, some { status := "error", message := "Token expired" })
    | .error .InvalidTokenError =>
      (none, some { status := "error", message := "Invalid token" })

end TokenManager

/-- The only Python runtime exception the auth layer can raise on its own:
`IndexError` from an out-of-range list subscript. -/
inductive PyExc where
  | IndexError
deriving Repr, DecidableEq

/-- Python `str.split(sep)` for a one-character separator, on the
character-list view of the string: splits at every occurrence, keeping
empty fields (`"".split(" ") == [""]`, `" b".split(" ") == ["", "b"]`). -/
def pySplit (sep : Char) : List Char → List (List Char)
  | [] => [[]]
  | c :: cs =>
    match pySplit sep cs with
    | [] => [[]]
    | w :: ws => if c = sep then [] :: w :: ws else (c :: w) :: ws

/-- Python `str(x)` on an optional string: `str(None) == "None"`. -/
def pyStrOpt : Option String → String
  | none => "None"
  | some s => s

/-- A `jsonify` response body: an optional `"status"` field plus a
`"message"` field. -/
structure JsonBody where
  status : Option String := none
  message : String
deriving Repr, DecidableEq

namespace AuthManager

/-- The outcome of an `AuthManager`-decorated route: either the wrapped
handler's result passed through, or a `(jsonify(...), code)` rejection. -/
inductive AMResp (α : Type) where
  | handler (a : α)
  | json (body : JsonBody) (code : Nat)
deriving Repr, DecidableEq

/-- `AuthManager._get_token()`:
`auth_header.split(" ")[1] if auth_header else None`.  A present,
non-empty header (Python truthiness) is split on a single space and
subscripted at index 1, which raises `IndexError` when the split has
fewer than two fields. -/
def _get_token (auth_header : Option (List Char)) :
    Except PyExc (Option (List Char)) :=
  match auth_header with
  | none => .ok none
  | some h =>
    if h = [] then .ok none
    else
      match (pySplit ' ' h).get? 1 with
      | some t => .ok (some t)
      | none => .error .IndexError

/-- `AuthManager.authenticate`: extract the token (any `IndexError` from
`_get_token` propagates uncaught), 401 when missing, decode it
(`decodeTok` stands for `token_manager.decode_token` on the token string),
store the payload in `g.user_payload` and run the wrapped function. -/
def authenticate (decodeTok : List Char → Except JwtError Payload)
    (auth_header : Option (List Char)) (f : Payload → α) :
    Except PyExc (AMResp α) :=
  match _get_token auth_header with
  | .error e => .error e
  | .ok none => .ok (.json { message := "Token is missing" } 401)
  | .ok (some token) =>
    match decodeTok token with
    | .error .ExpiredSignatureError =>
      .ok (.json { status := some "error", message := "Token expired" } 401)
    | .error .InvalidTokenError =>
      .ok (.json { status := some "error", message := "Invalid token" } 401)
    | .ok payload => .ok (.handler (f payload))

/-- `AuthManager.authorize_root`: requires `g.user_payload["is_root"]`. -/
def authorize_root (g_user_payload : Payload) (f : α) : AMResp α :=
  if g_user_payload.is_root then .handler f
  else .json { message := "Unauthorized" } 403

/-- `AuthManager.authorize_project_access`: root passes unconditionally;
otherwise the `project_uuid` path parameter must be truthy and the
subject's uuid must be in `fetch_project_users(project_uuid)` (the
external collaborator, spec: `fetchProjectUsers(projectId) -> set of
UserId`). -/
def authorize_project_access (fetch_project_users : String → List String)
    (g_user_payload : Payload) (project_uuid : Option String) (f : α) : AMResp α :=
  if g_user_payload.is_root then .handler f
  else
    match project_uuid with
    | some p =>
      if p ≠ "" ∧ g_user_payload.user_uuid ∈ fetch_project_users p then .handler f
      else .json { message := "Unauthorized for this project" } 403
    | none => .json { message := "Unauthorized for this project" } 403

/-- `AuthManager.authorize_user`: the token's `user_uuid` must equal the
`user_uuid` path parameter (no root bypass in this variant). -/
def authorize_user (g_user_payload : Payload) (user_uuid_in_path : Option String)
    (f : α) : AMResp α :=
  if some g_user_payload.user_uuid = user_uuid_in_path then .handler f
  else .json { message := "Unauthorized" } 403

end AuthManager

namespace JWTAuth

/-- A route handler wrapped by the guard: Python function name
(`f.__name__`, tested by the SelfOnly root bypass) and its result. -/
structure Handler (α : Type) where
  name : String
  result : α

/-- The keyword arguments of the wrapped route.  The outer `Option`
records whether the key is present in `kwargs` (`'project_uuid' in
kwargs`), the inner one the value (`None` or a string). -/
structure KwArgs where
  project_uuid : Option (Option String) := none
  user_uuid : Option (Option String) := none
deriving Repr, DecidableEq

/-- The outcome of a guarded request: the handler's result or a
`jsonify` rejection, each possibly carrying the `New-Access-Token`
response header; `outOfFuel` marks a run that exhausted its recursion
budget (a Python stack overflow). -/
inductive GuardResult (α : Type) where
  | handler (a : α) (newTokenHeader : Option Token)
  | json (body : JsonBody) (code : Nat) (newTokenHeader : Option Token)
  | outOfFuel
deriving Repr, DecidableEq

/-- Per-request environment of the guard: the `JWTAuth.secret_key`, the
bearer token extracted from the `Authorization` header, the
`refresh_token` cookie, and the clock readings at the two `utcnow`/decode
call sites (access-token validation vs refresh-and-mint). -/
structure GuardEnv where
  secret : String
  headerToken : Option Token
  refreshCookie : Option Token
  checkNow : Nat
  refreshNow : Nat

/-- The external data-access collaborator (spec §6):
`fetchProjectUsers(projectId) -> set of UserId` and
`getUserRootStatus(userId) -> bool`. -/
structure Collaborators where
  fetch_project_users : String → List String
  get_user_root_info : String → Bool

/-- `JWTAuth._authenticate_root`: decode the token (JWT errors propagate
to the caller), then require `is_root == True`. -/
def _authenticate_root (env : GuardEnv) (f : Handler α) (token : Token) :
    Except JwtError (GuardResult α) :=
  match jwtDecode token env.secret env.checkNow with
  | .error e => .error e
  | .ok token_payload =>
    if token_payload.is_root = true then
      .ok (.handler f.result none)
    else
      .ok (.json { message := "Unathorized" } 403 none)

/-- `JWTAuth.authorize_for_user_specific_operation` (the SelfOnly
policy): a root subject (per `get_user_root_info`) bypasses the check for
the handler named `get_user_projects` only; otherwise the token's
`user_uuid` must equal `str(kwargs.get("user_uuid"))`. -/
def authorize_for_user_specific_operation (env : GuardEnv) (ext : Collaborators)
    (f : Handler α) (token : Token) (user_uuid_in_path : Option String) :
    Except JwtError (GuardResult α) :=
  match jwtDecode token env.secret env.checkNow with
  | .error e => .error e
  | .ok token_payload =>
    let current_session_user_uuid := token_payload.user_uuid
    if current_session_user_uuid ≠ "" then
      let current_session_user_is_root := ext.get_user_root_info current_session_user_uuid
      if current_session_user_is_root = true ∧ f.name = "get_user_projects" then
        .ok (.handler f.result none)
      else if current_session_user_uuid ≠ pyStrOpt user_uuid_in_path then
        .ok (.json { message := "Unauthorized" } 403 none)
      else
        .ok (.handler f.result none)
    else
      .ok (.json { message := "Token error" } 500 none)

/-- `JWTAuth.authorize_user_for_project` (the ProjectMember policy): with
a truthy `project_uuid`, allow iff the subject is in the project's
membership list or `is_root is True`; with a falsy `project_uuid` the
handler is called with no check.  (The source projects each element of
`fetch_project_users(project_uuid)` to its uuid; with the collaborator
returning user ids, that projection is the identity.) -/
def authorize_user_for_project (env : GuardEnv) (ext : Collaborators)
    (f : Handler α) (token : Token) (project_uuid : Option String) :
    Except JwtError (GuardResult α) :=
  match jwtDecode token env.secret env.checkNow with
  | .error e => .error e
  | .ok token_payload =>
    let user_uuid := token_payload.user_uuid
    match project_uuid with
    | some p =>
      if p ≠ "" then
        let authorized_user_uuids := ext.fetch_project_users p
        if user_uuid ∈ authorized_user_uuids ∨ token_payload.is_root = true then
          .ok (.handler f.result none)
        else
          .ok (.json { message := "Unauthorized for this project" } 403 none)
      else
        .ok (.handler f.result none)
    | none => .ok (.handler f.result none)

/-- Modelled from the spec: the helper `get_new_access_token` (module
`app/utils/auth/get_new_access_token.py`, absent from the sources) builds
the refresh response from `TokenManager.refresh_access_token` (spec §4.2,
`refresh(refreshTokenString) -> (newAccessToken, None) | (None,
RefreshError)`): on success the JSON body carries the new access token
under `"access_token"`, on failure it is the refresh error object. -/
def get_new_access_token (cookie : Option Token) (now : Nat) :
    Option Token × TokenManager.ErrBody :=
  match TokenManager.refresh_access_token cookie now with
  | (some tok, _) => (some tok, { status := "success", message := "" })
  | (none, some err) => (none, err)
  | (none, none) => (none, { status := "error", message := "" })

/-- `response.headers['New-Access-Token'] = new_access_token` applied to
the `make_response` of an inner run's outcome. -/
def setNewTokenHeader (r : GuardResult α) (tok : Token) : GuardResult α :=
  match r with
  | .handler a _ => .handler a (some tok)
  | .json b c _ => .json b c (some tok)
  | .outOfFuel => .outOfFuel

/-- `JWTAuth.handle_expired_access_token`: parse the refresh response; if
it carries an access token, re-enter the guard with it (`reenter`, i.e.
`check_session_and_authorization(root_required)(f)(new_access_token, ...)`)
and stamp the `New-Access-Token` header on the response; otherwise return
the parsed refresh error with status 403.  (The trailing `except` blocks
of the source are unreachable: the inner decorated function already
catches both JWT error kinds.) -/
def handle_expired_access_token (env : GuardEnv)
    (reenter : Token → GuardResult α) : GuardResult α :=
  let parsed_json_data := get_new_access_token env.refreshCookie env.refreshNow
  match parsed_json_data.1 with
  | some new_access_token =>
    setNewTokenHeader (reenter new_access_token) new_access_token
  | none =>
    .json { status := some parsed_json_data.2.status
            message := parsed_json_data.2.message } 403 none

/-- The decorated function produced by
`JWTAuth.check_session_and_authorization(root_required)(f)`: pick the
token (the `new_access_token` argument if given, else the header token),
401 when missing, dispatch on `root_required` / `'project_uuid' in
kwargs` / `'user_uuid' in kwargs` (no decode at all on the plain path),
catch `ExpiredSignatureError` with the refresh flow and
`InvalidTokenError` with 401.  `fuel` bounds the recursion depth (the
Python stack). -/
def decorated_function (env : GuardEnv) (ext : Collaborators)
    (root_required : Bool) (f : Handler α) (kwargs : KwArgs) :
    Nat → Option Token → GuardResult α
  | 0, _ => .outOfFuel
  | fuel + 1, new_access_token =>
    let token? := match new_access_token with
      | some t => some t
      | none => env.headerToken
    match token? with
    | none => .json { message := "Token is missing" } 401 none
    | some token =>
      let body : Except JwtError (GuardResult α) :=
        if root_required then
          _authenticate_root env f token
        else if kwargs.project_uuid.isSome then
          authorize_user_for_project env ext f token (kwargs.project_uuid.getD none)
        else if kwargs.user_uuid.isSome then
          authorize_for_user_specific_operation env ext f token (kwargs.user_uuid.getD none)
        else
          .ok (.handler f.result none)
      match body with
      | .ok r => r
      | .error .ExpiredSignatureError =>
        handle_expired_access_token env
          (fun t => decorated_function env ext root_required f kwargs fuel (some t))
      | .error .InvalidTokenError =>
        .json { message := "Invalid token." } 401 none

/-- `JWTAuth.check_session_and_authorization(root_required)` applied to a
fresh inbound request (`new_access_token = None`). -/
def check_session_and_authorization (env : GuardEnv) (ext : Collaborators)
    (root_required : Bool) (f : Handler α) (kwargs : KwArgs) (fuel : Nat) :
    GuardResult α :=
  decorated_function env ext root_required f kwargs fuel none

/-- `JWTAuth._get_token()`: returns the second field of the header only
when the split has exactly two fields, `None` otherwise (never raises). -/
def _get_token (auth_header : Option (List Char)) : Option (List Char) :=
  match auth_header with
  | none => none
  | some h =>
    if h ≠ [] ∧ (pySplit ' ' h).length = 2 then (pySplit ' ' h).get? 1
    else none

/-- A concrete clock-skew request: the access token expired at 999, the
refresh token is valid until 1000000, the refresh-and-mint clock reads
1000 (so freshly minted access tokens expire at 1020) and the
access-token validation clock reads 1020 — every refreshed access token
is already expired when re-validated (the spec's "the refreshed access
token is also expired — clock skew" case). -/
def skewEnv : GuardEnv :=
  { secret := SECRET_KEY
    headerToken := some { payload := { user_uuid := "u-skew", is_root := true },
                          exp := 999, secret := SECRET_KEY }
    refreshCookie := some { payload := { user_uuid := "u-skew", is_root := true },
                            exp := 1000000, secret := SECRET_KEY }
    checkNow := 1020
    refreshNow := 1000 }

/-- Collaborator bindings for the clock-skew request. -/
def skewExt : Collaborators :=
  { fetch_project_users := fun _ => [], get_user_root_info := fun _ => true }

/-- The root-protected handler of the clock-skew request. -/
def skewHandler : Handler Nat := { name := "get_users", result := 0 }

end JWTAuth

end Flytrap

section Helpers

open Flytrap

/-- Splitting on a separator that occurs nowhere in the string yields the
one-field list. -/
theorem pySplit_no_sep (sep : Char) (h : List Char) (hns : ∀ c ∈ h, c ≠ sep) :
    pySplit sep h = [h] := by
  induction h with
  | nil => rfl
  | cons c cs ih =>
    have hc : c ≠ sep := hns c (List.mem_cons_self c cs)
    have ih' := ih (fun x hx => hns x (List.mem_cons_of_mem c hx))
    simp [pySplit, ih', hc]

end Helpers

/-- C7: For every claims payload (userId, isRoot) and every unexpired TTL,
encoding a token with the shared secret and then decoding it with the same
secret succeeds and returns the original claims unchanged (encode/decode
round-trip). -/
theorem c7_encode_decode_roundtrip (user_uuid : String) (is_root : Bool)
    (mintNow checkNow ttl : Nat) (hunexpired : checkNow < mintNow + ttl) :
    Flytrap.TokenManager.decode_token
      (Flytrap.TokenManager.create_access_token user_uuid is_root mintNow ttl)
      checkNow = .ok { user_uuid := user_uuid, is_root := is_root } := by
  simp [Flytrap.TokenManager.decode_token, Flytrap.TokenManager.create_access_token,
    Flytrap.jwtDecode, Nat.not_le_of_lt hunexpired]

theorem c7_encode_decode_roundtrip_witness :
    (3 : Nat) < 1 + 20 ∧
    Flytrap.TokenManager.decode_token
      (Flytrap.TokenManager.create_access_token "u-1" true 1 20) 3 =
      .ok { user_uuid := "u-1", is_root := true } :=
  ⟨by decide, c7_encode_decode_roundtrip "u-1" true 1 3 20 (by decide)⟩

/-- C8: For every valid, unexpired refresh token, the refresh operation
mints a new access token whose subject id and root flag equal those
carried by the refresh token; on an expired or malformed refresh token it
returns a typed error and mints no token. -/
theorem c8_refresh_mints_or_fails (rt : Flytrap.Token) (now : Nat) :
    (rt.secret = Flytrap.SECRET_KEY → now < rt.exp →
      Flytrap.TokenManager.refresh_access_token (some rt) now =
        (some (Flytrap.TokenManager.create_access_token
          rt.payload.user_uuid rt.payload.is_root now), none)) ∧
    (rt.secret = Flytrap.SECRET_KEY → rt.exp ≤ now →
      Flytrap.TokenManager.refresh_access_token (some rt) now =
        (none, some { status := "error", message := "Token expired" })) ∧
    (rt.secret ≠ Flytrap.SECRET_KEY →
      Flytrap.TokenManager.refresh_access_token (some rt) now =
        (none, some { status := "error", message := "Invalid token" })) := by
  refine ⟨fun hsig hu => ?_, fun hsig he => ?_, fun hsig => ?_⟩ <;>
    simp_all [Flytrap.TokenManager.refresh_access_token,
      Flytrap.TokenManager.decode_token, Flytrap.jwtDecode, Nat.not_le_of_lt]

theorem c8_refresh_mints_or_fails_witness :
    Flytrap.TokenManager.refresh_access_token
        (some { payload := { user_uuid := "u-2", is_root := false },
                exp := 50, secret := Flytrap.SECRET_KEY }) 10 =
      (some (Flytrap.TokenManager.create_access_token "u-2" false 10), none) ∧
    Flytrap.TokenManager.refresh_access_token
        (some { payload := { user_uuid := "u-2", is_root := false },
                exp := 50, secret := Flytrap.SECRET_KEY }) 60 =
      (none, some { status := "error", message := "Token expired" }) ∧
    Flytrap.TokenManager.refresh_access_token
        (some { payload := { user_uuid := "u-2", is_root := false },
                exp := 50, secret := "attacker" }) 10 =
      (none, some { status := "error", message := "Invalid token" }) :=
  ⟨(c8_refresh_mints_or_fails _ 10).1 rfl (by decide),
   (c8_refresh_mints_or_fails _ 60).2.1 rfl (by decide),
   (c8_refresh_mints_or_fails _ 10).2.2 (by decide)⟩

/-- C6 counterexample: a token that is both expired and signed with a
different secret decodes to `InvalidTokenError` (Malformed), not
`ExpiredSignatureError` — PyJWT verifies the signature before the expiry —
so "for every token whose expiry has passed, decode fails with Expired
and never with Malformed" is false as stated. -/
theorem c6_counterexample_expired_but_malformed :
    ({ payload := { user_uuid := "u-3", is_root := false },
       exp := 5, secret := "other-secret" } : Flytrap.Token).exp ≤ 10 ∧
    Flytrap.TokenManager.decode_token
      { payload := { user_uuid := "u-3", is_root := false },
        exp := 5, secret := "other-secret" } 10 =
      .error .InvalidTokenError := by
  constructor
  · decide
  · rfl

/-- C6 amended: for every token signed with the matching secret whose
expiry has passed, decode fails with `Expired`, never `Malformed`; for
every token signed with a different secret (expired or not), decode
fails with `Malformed`; the guard maps the two kinds to different
recovery paths: a malformed token is rejected immediately with 401,
an expired one enters `handle_expired_access_token` (the refresh
attempt). -/
theorem c6_decode_classification {α : Type} (tok : Flytrap.Token) (now : Nat) :
    (tok.secret = Flytrap.SECRET_KEY → tok.exp ≤ now →
      Flytrap.TokenManager.decode_token tok now = .error .ExpiredSignatureError) ∧
    (tok.secret ≠ Flytrap.SECRET_KEY →
      Flytrap.TokenManager.decode_token tok now = .error .InvalidTokenError) ∧
    (∀ (env : Flytrap.JWTAuth.GuardEnv) (ext : Flytrap.JWTAuth.Collaborators)
        (f : Flytrap.JWTAuth.Handler α) (fuel : Nat),
      env.headerToken = some tok → tok.secret ≠ env.secret →
      Flytrap.JWTAuth.check_session_and_authorization env ext true f {} (fuel + 1) =
        .json { message := "Invalid token." } 401 none) ∧
    (∀ (env : Flytrap.JWTAuth.GuardEnv) (ext : Flytrap.JWTAuth.Collaborators)
        (f : Flytrap.JWTAuth.Handler α) (fuel : Nat),
      env.headerToken = some tok → tok.secret = env.secret → tok.exp ≤ env.checkNow →
      Flytrap.JWTAuth.check_session_and_authorization env ext true f {} (fuel + 1) =
        Flytrap.JWTAuth.handle_expired_access_token env
          (fun t =>
            Flytrap.JWTAuth.decorated_function env ext true f {} fuel (some t))) := by
  refine ⟨fun hsig hexp => ?_, fun hsig => ?_,
    fun env ext f fuel hhdr hsig => ?_, fun env ext f fuel hhdr hsig hexp => ?_⟩
  · simp [Flytrap.TokenManager.decode_token, Flytrap.jwtDecode, hsig, hexp]
  · simp [Flytrap.TokenManager.decode_token, Flytrap.jwtDecode, hsig]
  · simp [Flytrap.JWTAuth.check_session_and_authorization,
      Flytrap.JWTAuth.decorated_function, hhdr,
      Flytrap.JWTAuth._authenticate_root, Flytrap.jwtDecode, hsig]
  · simp [Flytrap.JWTAuth.check_session_and_authorization,
      Flytrap.JWTAuth.decorated_function, hhdr,
      Flytrap.JWTAuth._authenticate_root, Flytrap.jwtDecode, hsig, hexp]

theorem c6_decode_classification_witness :
    Flytrap.TokenManager.decode_token
      { payload := { user_uuid := "u-6", is_root := false },
        exp := 4, secret := Flytrap.SECRET_KEY } 9 = .error .ExpiredSignatureError ∧
    Flytrap.TokenManager.decode_token
      { payload := { user_uuid := "u-6", is_root := false },
        exp := 400, secret := "wrong" } 9 = .error .InvalidTokenError ∧
    Flytrap.JWTAuth.check_session_and_authorization
      { secret := Flytrap.SECRET_KEY,
        headerToken := some { payload := { user_uuid := "u-6", is_root := false },
                              exp := 400, secret := "wrong" },
        refreshCookie := none, checkNow := 9, refreshNow := 9 }
      { fetch_project_users := fun _ => [], get_user_root_info := fun _ => false }
      true ({ name := "get_users", result := (0 : Nat) }) {} 1 =
      .json { message := "Invalid token." } 401 none :=
  ⟨(c6_decode_classification (α := Nat)
      { payload := { user_uuid := "u-6", is_root := false },
        exp := 4, secret := Flytrap.SECRET_KEY } 9).1 rfl (by decide),
   (c6_decode_classification (α := Nat)
      { payload := { user_uuid := "u-6", is_root := false },
        exp := 400, secret := "wrong" } 9).2.1 (by decide),
   (c6_decode_classification (α := Nat)
      { payload := { user_uuid := "u-6", is_root := false },
        exp := 400, secret := "wrong" } 9).2.2.1
     _ _ _ 0 rfl (by decide)⟩

/-- C5: Under the ProjectMember policy
(`AuthManager.authorize_project_access`), for every decoded token and
project in the request context: a root subject is allowed
unconditionally, and a non-root subject is allowed if and only if the
subject's id is in the project's membership set fetched from the
external collaborator; otherwise the request is denied with 403. -/
theorem c5_project_member_policy {α : Type}
    (fetch_project_users : String → List String) (g : Flytrap.Payload)
    (p : String) (hp : p ≠ "") (f : α) :
    (g.is_root = true →
      Flytrap.AuthManager.authorize_project_access fetch_project_users g (some p) f =
        .handler f) ∧
    (g.is_root = false →
      (Flytrap.AuthManager.authorize_project_access fetch_project_users g (some p) f =
          .handler f ↔ g.user_uuid ∈ fetch_project_users p)) ∧
    (g.is_root = false → g.user_uuid ∉ fetch_project_users p →
      Flytrap.AuthManager.authorize_project_access fetch_project_users g (some p) f =
        .json { message := "Unauthorized for this project" } 403) := by
  refine ⟨fun hroot => ?_, fun hroot => ?_, fun hroot hmem => ?_⟩
  · simp [Flytrap.AuthManager.authorize_project_access, hroot]
  · by_cases hmem : g.user_uuid ∈ fetch_project_users p <;>
      simp [Flytrap.AuthManager.authorize_project_access, hroot, hp, hmem]
  · simp [Flytrap.AuthManager.authorize_project_access, hroot, hp, hmem]

theorem c5_project_member_policy_witness :
    Flytrap.AuthManager.authorize_project_access
        (fun _ => ["u-m"]) { user_uuid := "u-r", is_root := true } (some "p-1") (7 : Nat) =
      .handler 7 ∧
    (Flytrap.AuthManager.authorize_project_access
        (fun _ => ["u-m"]) { user_uuid := "u-m", is_root := false } (some "p-1") (7 : Nat) =
        .handler 7 ↔ "u-m" ∈ ["u-m"]) ∧
    Flytrap.AuthManager.authorize_project_access
        (fun _ => ["u-m"]) { user_uuid := "u-x", is_root := false } (some "p-1") (7 : Nat) =
      .json { message := "Unauthorized for this project" } 403 :=
  ⟨(c5_project_member_policy (fun _ => ["u-m"])
      { user_uuid := "u-r", is_root := true } "p-1" (by decide) 7).1 rfl,
   (c5_project_member_policy (fun _ => ["u-m"])
      { user_uuid := "u-m", is_root := false } "p-1" (by decide) 7).2.1 rfl,
   (c5_project_member_policy (fun _ => ["u-m"])
      { user_uuid := "u-x", is_root := false } "p-1" (by decide) 7).2.2 rfl (by decide)⟩

/-- C9: For every request whose Authorization header is present but
contains no space character (a bare token with no "Bearer" scheme
prefix), `AuthManager`'s token extraction raises an uncaught
`IndexError` instead of returning `None`, so the request crashes rather
than being rejected with the 401 "Token is missing" response (by
contrast, `JWTAuth._get_token` returns `None` on the same header). -/
theorem c9_bare_token_index_error {α : Type}
    (h : List Char) (hne : h ≠ []) (hns : ∀ c ∈ h, c ≠ ' ')
    (decodeTok : List Char → Except Flytrap.JwtError Flytrap.Payload)
    (f : Flytrap.Payload → α) :
    Flytrap.AuthManager.authenticate decodeTok (some h) f = .error .IndexError ∧
    Flytrap.JWTAuth._get_token (some h) = none := by
  have hsplit := pySplit_no_sep ' ' h hns
  constructor
  · simp [Flytrap.AuthManager.authenticate, Flytrap.AuthManager._get_token,
      hne, hsplit]
  · simp [Flytrap.JWTAuth._get_token, hsplit]

theorem c9_bare_token_index_error_witness :
    Flytrap.AuthManager.authenticate
        (fun _ => .ok { user_uuid := "u-9", is_root := false })
        (some "sometoken".toList) (fun p => p.user_uuid) = .error .IndexError ∧
    Flytrap.JWTAuth._get_token (some "sometoken".toList) = none :=
  c9_bare_token_index_error "sometoken".toList (by decide) (by decide)
    (fun _ => .ok { user_uuid := "u-9", is_root := false }) (fun p => p.user_uuid)

/-- C10: In `JWTAuth`'s project authorization, if the request context
contains a `project_uuid` key whose value is falsy (`None` or the empty
string), the wrapped handler is invoked without any membership or root
check at all: for every collaborator binding and every authenticated
subject (any payload), the guard returns the handler's result. -/
theorem c10_falsy_project_uuid_skips_check {α : Type}
    (env : Flytrap.JWTAuth.GuardEnv) (ext : Flytrap.JWTAuth.Collaborators)
    (f : Flytrap.JWTAuth.Handler α) (tok : Flytrap.Token) (v : Option String)
    (fuel : Nat) (hhdr : env.headerToken = some tok)
    (hsig : tok.secret = env.secret) (hunexp : env.checkNow < tok.exp)
    (hfalsy : v = none ∨ v = some "") :
    Flytrap.JWTAuth.check_session_and_authorization env ext false f
        { project_uuid := some v } (fuel + 1) =
      .handler f.result none := by
  rcases hfalsy with rfl | rfl <;>
    simp [Flytrap.JWTAuth.check_session_and_authorization,
      Flytrap.JWTAuth.decorated_function, hhdr,
      Flytrap.JWTAuth.authorize_user_for_project, Flytrap.jwtDecode, hsig,
      Nat.not_le_of_lt hunexp]

theorem c10_falsy_project_uuid_skips_check_witness :
    Flytrap.JWTAuth.check_session_and_authorization
        { secret := Flytrap.SECRET_KEY,
          headerToken := some { payload := { user_uuid := "u-10", is_root := false },
                                exp := 100, secret := Flytrap.SECRET_KEY },
          refreshCookie := none, checkNow := 10, refreshNow := 10 }
        { fetch_project_users := fun _ => [], get_user_root_info := fun _ => false }
        false ({ name := "get_issues", result := (7 : Nat) })
        { project_uuid := some none } 1 =
      .handler 7 none :=
  c10_falsy_project_uuid_skips_check _ _ _ _ _ 0 rfl rfl (by decide) (Or.inl rfl)

/-- C3: Under the SelfOnly policy
(`JWTAuth.authorize_for_user_specific_operation`), a root subject is
always allowed to perform the handler named `get_user_projects` ("list a
user's projects") even when the path userId differs from its own id,
while for every other SelfOnly operation any subject whose token
subjectId differs from the path userId — root included — is denied with
403 (likewise under the `AuthManager.authorize_user` variant, which has
no bypass at all). -/
theorem c3_selfonly_root_bypass {α : Type}
    (env : Flytrap.JWTAuth.GuardEnv) (ext : Flytrap.JWTAuth.Collaborators)
    (f : Flytrap.JWTAuth.Handler α) (tok : Flytrap.Token) (path : Option String)
    (hsig : tok.secret = env.secret) (hunexp : env.checkNow < tok.exp)
    (hu : tok.payload.user_uuid ≠ "") :
    (ext.get_user_root_info tok.payload.user_uuid = true →
      f.name = "get_user_projects" →
      Flytrap.JWTAuth.authorize_for_user_specific_operation env ext f tok path =
        .ok (.handler f.result none)) ∧
    (f.name ≠ "get_user_projects" →
      tok.payload.user_uuid ≠ Flytrap.pyStrOpt path →
      Flytrap.JWTAuth.authorize_for_user_specific_operation env ext f tok path =
        .ok (.json { message := "Unauthorized" } 403 none)) ∧
    (∀ (g : Flytrap.Payload) (pathv : Option String) (fv : α),
      some g.user_uuid ≠ pathv →
      Flytrap.AuthManager.authorize_user g pathv fv =
        .json { message := "Unauthorized" } 403) := by
  refine ⟨fun hroot hname => ?_, fun hname hdiff => ?_, fun g pathv fv hdiff => ?_⟩
  · simp [Flytrap.JWTAuth.authorize_for_user_specific_operation,
      Flytrap.jwtDecode, hsig, Nat.not_le_of_lt hunexp, hu, hroot, hname]
  · simp [Flytrap.JWTAuth.authorize_for_user_specific_operation,
      Flytrap.jwtDecode, hsig, Nat.not_le_of_lt hunexp, hu, hname, hdiff]
  · simp [Flytrap.AuthManager.authorize_user, hdiff]

theorem c3_selfonly_root_bypass_witness :
    Flytrap.JWTAuth.authorize_for_user_specific_operation
        { secret := Flytrap.SECRET_KEY,
          headerToken := none, refreshCookie := none, checkNow := 10, refreshNow := 10 }
        { fetch_project_users := fun _ => [], get_user_root_info := fun _ => true }
        ({ name := "get_user_projects", result := (1 : Nat) })
        { payload := { user_uuid := "root-uuid", is_root := true },
          exp := 100, secret := Flytrap.SECRET_KEY }
        (some "other-uuid") =
      .ok (.handler 1 none) ∧
    Flytrap.JWTAuth.authorize_for_user_specific_operation
        { secret := Flytrap.SECRET_KEY,
          headerToken := none, refreshCookie := none, checkNow := 10, refreshNow := 10 }
        { fetch_project_users := fun _ => [], get_user_root_info := fun _ => true }
        ({ name := "update_user_password", result := (1 : Nat) })
        { payload := { user_uuid := "root-uuid", is_root := true },
          exp := 100, secret := Flytrap.SECRET_KEY }
        (some "other-uuid") =
      .ok (.json { message := "Unauthorized" } 403 none) ∧
    Flytrap.AuthManager.authorize_user
        { user_uuid := "root-uuid", is_root := true } (some "other-uuid") (1 : Nat) =
      .json { message := "Unauthorized" } 403 :=
  ⟨(c3_selfonly_root_bypass _ _ _ _ _ rfl (by decide) (by decide)).1 rfl rfl,
   (c3_selfonly_root_bypass _ _
      ({ name := "update_user_password", result := (1 : Nat) }) _ _
      rfl (by decide) (by decide)).2.1 (by decide) (by decide),
   (c3_selfonly_root_bypass (α := Nat)
      { secret := Flytrap.SECRET_KEY,
        headerToken := none, refreshCookie := none, checkNow := 10, refreshNow := 10 }
      { fetch_project_users := fun _ => [], get_user_root_info := fun _ => true }
      ({ name := "update_user_password", result := (1 : Nat) })
      { payload := { user_uuid := "root-uuid", is_root := true },
        exp := 100, secret := Flytrap.SECRET_KEY }
      (some "other-uuid") rfl (by decide) (by decide)).2.2
     { user_uuid := "root-uuid", is_root := true } (some "other-uuid") 1 (by decide)⟩

/-- C1 counterexample: on a plain authenticated route (`root_required =
False`, no `project_uuid`/`user_uuid` in kwargs) the guard never decodes
the token, so a request carrying an expired (well-signed) access token
together with a valid refresh token succeeds with the handler's result
but performs no refresh and carries no new access token in the response
— refuting "for every request ... the response carries the new access
token". -/
theorem c1_counterexample_plain_route_no_refresh :
    Flytrap.JWTAuth.check_session_and_authorization
        { secret := Flytrap.SECRET_KEY,
          headerToken := some { payload := { user_uuid := "u-1c", is_root := false },
                                exp := 999, secret := Flytrap.SECRET_KEY },
          refreshCookie := some { payload := { user_uuid := "u-1c", is_root := false },
                                  exp := 1000000, secret := Flytrap.SECRET_KEY },
          checkNow := 1000, refreshNow := 1000 }
        { fetch_project_users := fun _ => [], get_user_root_info := fun _ => false }
        false ({ name := "get_session_info", result := (42 : Nat) }) {} 1 =
      .handler 42 none ∧
    (999 : Nat) ≤ 1000 ∧ (1000 : Nat) < 1000000 := by
  refine ⟨rfl, by decide, by decide⟩

/-- C1 amended: on each of the three guard paths that decode the token
(root-required, project, user-specific), for every request carrying a
well-signed access token whose expiry has passed together with a valid
(unexpired, well-signed) refresh token whose subject passes that path's
policy, and whose freshly minted access token is not itself already
expired at re-validation (`checkNow < refreshNow + 20`; otherwise the
guard recurses unboundedly, the C2 defect), the guard transparently
obtains a new access token, the request succeeds, the response carries
the new access token in the `New-Access-Token` field, and the wrapped
handler's result is unaffected. -/
theorem c1_transparent_refresh {α : Type}
    (env : Flytrap.JWTAuth.GuardEnv) (ext : Flytrap.JWTAuth.Collaborators)
    (f : Flytrap.JWTAuth.Handler α) (a rt : Flytrap.Token) (fuel : Nat)
    (hsk : env.secret = Flytrap.SECRET_KEY)
    (hhdr : env.headerToken = some a)
    (hasig : a.secret = Flytrap.SECRET_KEY)
    (haexp : a.exp ≤ env.checkNow)
    (hcookie : env.refreshCookie = some rt)
    (hrsig : rt.secret = Flytrap.SECRET_KEY)
    (hrexp : env.refreshNow < rt.exp)
    (hfresh : env.checkNow < env.refreshNow + 20) :
    (rt.payload.is_root = true →
      Flytrap.JWTAuth.check_session_and_authorization env ext true f {} (fuel + 2) =
        .handler f.result
          (some (Flytrap.TokenManager.create_access_token
            rt.payload.user_uuid rt.payload.is_root env.refreshNow))) ∧
    (∀ p : String, p ≠ "" →
      rt.payload.user_uuid ∈ ext.fetch_project_users p ∨ rt.payload.is_root = true →
      Flytrap.JWTAuth.check_session_and_authorization env ext false f
          { project_uuid := some (some p) } (fuel + 2) =
        .handler f.result
          (some (Flytrap.TokenManager.create_access_token
            rt.payload.user_uuid rt.payload.is_root env.refreshNow))) ∧
    (∀ pathv : Option String, rt.payload.user_uuid ≠ "" →
      rt.payload.user_uuid = Flytrap.pyStrOpt pathv →
      Flytrap.JWTAuth.check_session_and_authorization env ext false f
          { user_uuid := some pathv } (fuel + 2) =
        .handler f.result
          (some (Flytrap.TokenManager.create_access_token
            rt.payload.user_uuid rt.payload.is_root env.refreshNow))) := by
  refine ⟨fun hroot => ?_, fun p hp hallow => ?_, fun pathv hne hself => ?_⟩
  · show Flytrap.JWTAuth.decorated_function env ext true f {} (fuel + 1 + 1) none = _
    simp [Flytrap.JWTAuth.decorated_function, Flytrap.JWTAuth._authenticate_root,
      Flytrap.JWTAuth.handle_expired_access_token,
      Flytrap.JWTAuth.get_new_access_token, Flytrap.JWTAuth.setNewTokenHeader,
      Flytrap.TokenManager.refresh_access_token, Flytrap.TokenManager.decode_token,
      Flytrap.TokenManager.create_access_token, Flytrap.jwtDecode,
      hsk, hhdr, hasig, haexp, hcookie, hrsig, hroot,
      Nat.not_le_of_lt hrexp, Nat.not_le_of_lt hfresh]
  · show Flytrap.JWTAuth.decorated_function env ext false f
        { project_uuid := some (some p) } (fuel + 1 + 1) none = _
    rcases hallow with hmem | hroot
    · simp [Flytrap.JWTAuth.decorated_function,
        Flytrap.JWTAuth.authorize_user_for_project,
        Flytrap.JWTAuth.handle_expired_access_token,
        Flytrap.JWTAuth.get_new_access_token, Flytrap.JWTAuth.setNewTokenHeader,
        Flytrap.TokenManager.refresh_access_token, Flytrap.TokenManager.decode_token,
        Flytrap.TokenManager.create_access_token, Flytrap.jwtDecode,
        hsk, hhdr, hasig, haexp, hcookie, hrsig, hp, hmem,
        Nat.not_le_of_lt hrexp, Nat.not_le_of_lt hfresh]
    · simp [Flytrap.JWTAuth.decorated_function,
        Flytrap.JWTAuth.authorize_user_for_project,
        Flytrap.JWTAuth.handle_expired_access_token,
        Flytrap.JWTAuth.get_new_access_token, Flytrap.JWTAuth.setNewTokenHeader,
        Flytrap.TokenManager.refresh_access_token, Flytrap.TokenManager.decode_token,
        Flytrap.TokenManager.create_access_token, Flytrap.jwtDecode,
        hsk, hhdr, hasig, haexp, hcookie, hrsig, hp, hroot,
        Nat.not_le_of_lt hrexp, Nat.not_le_of_lt hfresh]
  · show Flytrap.JWTAuth.decorated_function env ext false f
        { user_uuid := some pathv } (fuel + 1 + 1) none = _
    have hne' : Flytrap.pyStrOpt pathv ≠ "" := hself ▸ hne
    simp [Flytrap.JWTAuth.decorated_function,
      Flytrap.JWTAuth.authorize_for_user_specific_operation,
      Flytrap.JWTAuth.handle_expired_access_token,
      Flytrap.JWTAuth.get_new_access_token, Flytrap.JWTAuth.setNewTokenHeader,
      Flytrap.TokenManager.refresh_access_token, Flytrap.TokenManager.decode_token,
      Flytrap.TokenManager.create_access_token, Flytrap.jwtDecode,
      hsk, hhdr, hasig, haexp, hcookie, hrsig, hne, hself, hne',
      Nat.not_le_of_lt hrexp, Nat.not_le_of_lt hfresh]

theorem c1_transparent_refresh_witness :
    Flytrap.JWTAuth.check_session_and_authorization
        { secret := Flytrap.SECRET_KEY,
          headerToken := some { payload := { user_uuid := "u-root", is_root := true },
                                exp := 999, secret := Flytrap.SECRET_KEY },
          refreshCookie := some { payload := { user_uuid := "u-root", is_root := true },
                                  exp := 1000000, secret := Flytrap.SECRET_KEY },
          checkNow := 1000, refreshNow := 1000 }
        { fetch_project_users := fun _ => ["u-root"], get_user_root_info := fun _ => true }
        true ({ name := "get_users", result := (42 : Nat) }) {} 2 =
      .handler 42
        (some (Flytrap.TokenManager.create_access_token "u-root" true 1000)) ∧
    Flytrap.JWTAuth.check_session_and_authorization
        { secret := Flytrap.SECRET_KEY,
          headerToken := some { payload := { user_uuid := "u-root", is_root := true },
                                exp := 999, secret := Flytrap.SECRET_KEY },
          refreshCookie := some { payload := { user_uuid := "u-root", is_root := true },
                                  exp := 1000000, secret := Flytrap.SECRET_KEY },
          checkNow := 1000, refreshNow := 1000 }
        { fetch_project_users := fun _ => ["u-root"], get_user_root_info := fun _ => true }
        false ({ name := "get_issues", result := (42 : Nat) })
        { project_uuid := some (some "p-1") } 2 =
      .handler 42
        (some (Flytrap.TokenManager.create_access_token "u-root" true 1000)) ∧
    Flytrap.JWTAuth.check_session_and_authorization
        { secret := Flytrap.SECRET_KEY,
          headerToken := some { payload := { user_uuid := "u-root", is_root := true },
                                exp := 999, secret := Flytrap.SECRET_KEY },
          refreshCookie := some { payload := { user_uuid := "u-root", is_root := true },
                                  exp := 1000000, secret := Flytrap.SECRET_KEY },
          checkNow := 1000, refreshNow := 1000 }
        { fetch_project_users := fun _ => ["u-root"], get_user_root_info := fun _ => true }
        false ({ name := "update_user_password", result := (42 : Nat) })
        { user_uuid := some (some "u-root") } 2 =
      .handler 42
        (some (Flytrap.TokenManager.create_access_token "u-root" true 1000)) :=
  ⟨(c1_transparent_refresh _ _ _ _ _ 0 rfl rfl rfl (by decide) rfl rfl (by decide)
      (by decide)).1 rfl,
   (c1_transparent_refresh _ _
      ({ name := "get_issues", result := (42 : Nat) }) _ _ 0
      rfl rfl rfl (by decide) rfl rfl (by decide) (by decide)).2.1
     "p-1" (by decide) (Or.inl (by decide)),
   (c1_transparent_refresh _ _
      ({ name := "update_user_password", result := (42 : Nat) }) _ _ 0
      rfl rfl rfl (by decide) rfl rfl (by decide) (by decide)).2.2
     (some "u-root") (by decide) (by decide)⟩

/-- C4 counterexample: with an expired, well-signed access token and no
refresh token presented, the guard terminates with status 403 (body
`{"status": "error", "message": "No refresh token found"}`), not the 401
the claim states: `handle_expired_access_token` returns
`jsonify(parsed_json_data), 403` for every refresh failure. -/
theorem c4_counterexample_missing_refresh_is_403 :
    Flytrap.JWTAuth.check_session_and_authorization
        { secret := Flytrap.SECRET_KEY,
          headerToken := some { payload := { user_uuid := "u-4c", is_root := true },
                                exp := 999, secret := Flytrap.SECRET_KEY },
          refreshCookie := none, checkNow := 1000, refreshNow := 1000 }
        { fetch_project_users := fun _ => [], get_user_root_info := fun _ => true }
        true ({ name := "get_users", result := (0 : Nat) }) {} 1 =
      .json { status := some "error", message := "No refresh token found" } 403 none ∧
    (403 : Nat) ≠ 401 := by
  exact ⟨rfl, by decide⟩

/-- C4 amended: when the single refresh attempt fails, the request
terminates with status 403 in every refresh-failure case — missing
refresh token, expired refresh token, and malformed refresh token alike
— and the cases remain distinguishable by their message bodies
(`"No refresh token found"` vs `"Token expired"` vs `"Invalid token"`),
not by their status. -/
theorem c4_refresh_failure_statuses {α : Type}
    (env : Flytrap.JWTAuth.GuardEnv) (ext : Flytrap.JWTAuth.Collaborators)
    (f : Flytrap.JWTAuth.Handler α) (a : Flytrap.Token) (fuel : Nat)
    (hsk : env.secret = Flytrap.SECRET_KEY)
    (hhdr : env.headerToken = some a)
    (hasig : a.secret = Flytrap.SECRET_KEY)
    (haexp : a.exp ≤ env.checkNow) :
    (env.refreshCookie = none →
      Flytrap.JWTAuth.check_session_and_authorization env ext true f {} (fuel + 1) =
        .json { status := some "error", message := "No refresh token found" } 403 none) ∧
    (∀ rt : Flytrap.Token, env.refreshCookie = some rt →
      rt.secret = Flytrap.SECRET_KEY → rt.exp ≤ env.refreshNow →
      Flytrap.JWTAuth.check_session_and_authorization env ext true f {} (fuel + 1) =
        .json { status := some "error", message := "Token expired" } 403 none) ∧
    (∀ rt : Flytrap.Token, env.refreshCookie = some rt →
      rt.secret ≠ Flytrap.SECRET_KEY →
      Flytrap.JWTAuth.check_session_and_authorization env ext true f {} (fuel + 1) =
        .json { status := some "error", message := "Invalid token" } 403 none) := by
  refine ⟨fun hc => ?_, fun rt hc hrsig hrexp => ?_, fun rt hc hrsig => ?_⟩ <;>
    simp [Flytrap.JWTAuth.check_session_and_authorization,
      Flytrap.JWTAuth.decorated_function, Flytrap.JWTAuth._authenticate_root,
      Flytrap.JWTAuth.handle_expired_access_token,
      Flytrap.JWTAuth.get_new_access_token,
      Flytrap.TokenManager.refresh_access_token, Flytrap.TokenManager.decode_token,
      Flytrap.jwtDecode, hsk, hhdr, hasig, haexp, hc, *]

theorem c4_refresh_failure_statuses_witness :
    Flytrap.JWTAuth.check_session_and_authorization
        { secret := Flytrap.SECRET_KEY,
          headerToken := some { payload := { user_uuid := "u-4", is_root := true },
                                exp := 999, secret := Flytrap.SECRET_KEY },
          refreshCookie := none, checkNow := 1000, refreshNow := 1000 }
        { fetch_project_users := fun _ => [], get_user_root_info := fun _ => true }
        true ({ name := "get_users", result := (0 : Nat) }) {} 1 =
      .json { status := some "error", message := "No refresh token found" } 403 none ∧
    Flytrap.JWTAuth.check_session_and_authorization
        { secret := Flytrap.SECRET_KEY,
          headerToken := some { payload := { user_uuid := "u-4", is_root := true },
                                exp := 999, secret := Flytrap.SECRET_KEY },
          refreshCookie := some { payload := { user_uuid := "u-4", is_root := true },
                                  exp := 900, secret := Flytrap.SECRET_KEY },
          checkNow := 1000, refreshNow := 1000 }
        { fetch_project_users := fun _ => [], get_user_root_info := fun _ => true }
        true ({ name := "get_users", result := (0 : Nat) }) {} 1 =
      .json { status := some "error", message := "Token expired" } 403 none :=
  ⟨(c4_refresh_failure_statuses _ _ _ _ 0 rfl rfl rfl (by decide)).1 rfl,
   (c4_refresh_failure_statuses _ _ _ _ 0 rfl rfl rfl (by decide)).2.1
     _ rfl rfl (by decide)⟩

/-- In the clock-skew scenario, re-entering the decorated function with
the freshly minted (already expired) access token exhausts any recursion
budget: each level's decode raises `ExpiredSignatureError` again and
`handle_expired_access_token` performs yet another refresh. -/
theorem skew_reentry_diverges (n : Nat) :
    Flytrap.JWTAuth.decorated_function Flytrap.JWTAuth.skewEnv
        Flytrap.JWTAuth.skewExt true Flytrap.JWTAuth.skewHandler {} n
        (some { payload := { user_uuid := "u-skew", is_root := true },
                exp := 1020, secret := Flytrap.SECRET_KEY }) =
      .outOfFuel := by
  induction n with
  | zero => rfl
  | succ n ih =>
    simp only [Flytrap.JWTAuth.skewEnv, Flytrap.JWTAuth.skewExt] at ih
    simp [Flytrap.JWTAuth.decorated_function, Flytrap.JWTAuth._authenticate_root,
      Flytrap.JWTAuth.handle_expired_access_token,
      Flytrap.JWTAuth.get_new_access_token, Flytrap.JWTAuth.setNewTokenHeader,
      Flytrap.TokenManager.refresh_access_token, Flytrap.TokenManager.decode_token,
      Flytrap.TokenManager.create_access_token, Flytrap.jwtDecode,
      Flytrap.JWTAuth.skewEnv, Flytrap.JWTAuth.skewExt, ih]

/-- C2 (refuting the claim; the spec is the intent): in the clock-skew
request, the guard does NOT stop after a single refresh attempt — the
second expiry is caught again and triggers another refresh, recursing
without bound: the run exhausts every recursion budget (a Python
`RecursionError`) instead of terminating with an error. -/
theorem c2_unbounded_refresh_recursion (fuel : Nat) :
    Flytrap.JWTAuth.check_session_and_authorization Flytrap.JWTAuth.skewEnv
        Flytrap.JWTAuth.skewExt true Flytrap.JWTAuth.skewHandler {} fuel =
      .outOfFuel := by
  cases fuel with
  | zero => rfl
  | succ n =>
    have h := skew_reentry_diverges n
    simp only [Flytrap.JWTAuth.skewEnv, Flytrap.JWTAuth.skewExt] at h
    simp [Flytrap.JWTAuth.check_session_and_authorization,
      Flytrap.JWTAuth.decorated_function, Flytrap.JWTAuth._authenticate_root,
      Flytrap.JWTAuth.handle_expired_access_token,
      Flytrap.JWTAuth.get_new_access_token, Flytrap.JWTAuth.setNewTokenHeader,
      Flytrap.TokenManager.refresh_access_token, Flytrap.TokenManager.decode_token,
      Flytrap.TokenManager.create_access_token, Flytrap.jwtDecode,
      Flytrap.JWTAuth.skewEnv, Flytrap.JWTAuth.skewExt, h]
